import Mathlib

/-!
Verification of the SAG mill simulator (`src/apptest/simulador_sag.py` and the
variant step function in `src/apptest/app_streamlit.py`).

The numerical state is embedded over `ℚ`.  The stochastic draws of
`np.random.normal` / `np.random.uniform` / `np.random.random` and the
transcendental functions `np.sin` / `np.exp` are not computable over `ℚ`, so
they are passed in explicitly: each simulation step receives a record of the
noise values drawn during that step, and the oscillator functions `sinq` and
`expq` are abstract `ℚ → ℚ` parameters.  Everything else is a direct
transcription of the Python source.
-/

/-- `self.dt = 1/60.0`: one simulated minute, expressed in hours. -/
def dtSim : ℚ := 1 / 60

/-- `np.clip(x, lo, hi) = min(max(x, lo), hi)`. -/
def clip (x lo hi : ℚ) : ℚ := min (max x lo) hi

/-- Append on a `collections.deque` with a maximum length `cap`:
the new element is appended and the oldest elements are dropped from the
front when the capacity is exceeded. -/
def pushCap (cap : ℕ) (l : List ℚ) (x : ℚ) : List ℚ :=
  let l' := l ++ [x]
  if cap < l'.length then l'.drop (l'.length - cap) else l'

/-- Helper for `idxMinAbs`: fold over the remaining times keeping the first
index `bi` whose distance `bv` to the query is minimal (strict `<` keeps the
earlier index on ties, as Python `list.index(min(...))` does). -/
def idxMinAux (tp : ℚ) : List ℚ → ℕ → ℕ → ℚ → ℕ
  | [], _, bi, _ => bi
  | u :: rest, i, bi, bv =>
      if |u - tp| < bv then idxMinAux tp rest (i + 1) i |u - tp|
      else idxMinAux tp rest (i + 1) bi bv

/-- `diferencias = [abs(t - tiempo_pasado) for t in buffer_t];
idx_min = diferencias.index(min(diferencias))`: the first index whose recorded
time is nearest in absolute distance to the query time. -/
def idxMinAbs (ts : List ℚ) (tp : ℚ) : ℕ :=
  match ts with
  | [] => 0
  | u :: rest => idxMinAux tp rest 1 0 |u - tp|

/-- The value lookup of the delay buffer as the source performs it:
fetch the sample at the index of the nearest absolute recorded time. -/
def buscarRetardo (ts vs : List ℚ) (tp : ℚ) : ℚ :=
  vs.getD (idxMinAbs ts tp) 0

/-- Specification lookup, for comparison with `buscarRetardo` in claim C5.
Modelled from the spec: `read(t_query)` returns the value recorded at the most
recent time less than or equal to `t_query` (zero-order hold over past samples
only), and `0` when no such sample exists. -/
def lookupNearestPast (ts vs : List ℚ) (tp : ℚ) : ℚ :=
  let best := (ts.zip vs).foldl
    (fun acc p =>
      match acc with
      | none => if p.1 ≤ tp then some p else none
      | some q => if p.1 ≤ tp ∧ q.1 ≤ p.1 then some p else acc)
    none
  match best with
  | some p => p.2
  | none => 0

/-- The parameter dictionary of `SimuladorSAG` (keys of
`crear_parametros_default`). -/
structure Params where
  F_nominal : ℚ
  L_nominal : ℚ
  fraccion_recirculacion : ℚ
  humedad_alimentacion : ℚ
  humedad_sag : ℚ
  humedad_recirculacion : ℚ
  k_descarga : ℚ
  tau_recirculacion : ℚ
  tau_finos : ℚ
deriving DecidableEq

/-- `crear_parametros_default()`. -/
def crearParametrosDefault : Params :=
  { F_nominal := 2000
    L_nominal := 9 / 1250
    fraccion_recirculacion := 11 / 100
    humedad_alimentacion := 7 / 200
    humedad_sag := 3 / 10
    humedad_recirculacion := 2 / 25
    k_descarga := 1 / 2
    tau_recirculacion := 90
    tau_finos := 48 }

/-- `self.estado`: the mutable simulation state. -/
structure Estado where
  t : ℚ
  M_sag : ℚ
  W_sag : ℚ
  M_cu_sag : ℚ
  F_actual : ℚ
  L_actual : ℚ
  H_sag : ℚ
deriving DecidableEq

/-- `self.objetivos`. -/
structure Objetivos where
  F_target : ℚ
  L_target : ℚ
deriving DecidableEq

/-- The values drawn from `np.random` during one `paso_simulacion` of
`SimuladorSAG` (one normal draw per site; a draw that a branch does not use is
simply ignored, matching the fact that Python only evaluates the draw inside
the branch that needs it). -/
structure Ruido where
  ruido_arranque : ℚ
  ruido : ℚ
  ruido_arranque_L : ℚ
  ruido_L : ℚ
deriving DecidableEq

/-- `self.historial`: parallel time-stamped series for the charts. -/
structure Historial where
  t : List ℚ
  M_sag : List ℚ
  W_sag : List ℚ
  M_cu_sag : List ℚ
  F_chancado : List ℚ
  L_chancado : List ℚ
  F_finos : List ℚ
  F_sobre_tamano : List ℚ
  F_target : List ℚ
  L_target : List ℚ
  F_descarga : List ℚ
  L_sag : List ℚ
  H_sag : List ℚ
deriving DecidableEq

/-- Append to one history series, keeping only the last `max_puntos = 24*60`
entries (`self.historial[key] = self.historial[key][-max_puntos:]`). -/
def pushHist (l : List ℚ) (x : ℚ) : List ℚ :=
  let l' := l ++ [x]
  if 24 * 60 < l'.length then l'.drop (l'.length - 24 * 60) else l'

/-- The whole simulator object (`SimuladorSAG.__init__` fields; the random
seed is abstracted into the explicit noise streams). -/
structure Sim where
  params : Params
  estado : Estado
  objetivos : Objetivos
  buffer_F : List ℚ
  buffer_t : List ℚ
  historial : Historial
deriving DecidableEq

/-- The empty history dictionary created by `__init__`. -/
def historialVacio : Historial :=
  { t := [], M_sag := [], W_sag := [], M_cu_sag := [], F_chancado := []
    L_chancado := [], F_finos := [], F_sobre_tamano := [], F_target := []
    L_target := [], F_descarga := [], L_sag := [], H_sag := [] }

/-- `SimuladorSAG.__init__(params)`. -/
def init (p : Params) : Sim :=
  { params := p
    estado :=
      { t := 0
        M_sag := 100
        W_sag := 2143 / 50
        M_cu_sag := 18 / 25
        F_actual := 0
        L_actual := p.L_nominal * (3 / 10)
        H_sag := p.humedad_sag }
    objetivos := { F_target := p.F_nominal, L_target := p.L_nominal }
    buffer_F := [0]
    buffer_t := [0]
    historial := historialVacio }

/-- `SimuladorSAG.calcular_alimentacion_chancado(dt)`: returns the updated
simulator together with `(F_chancado, L_chancado)`. -/
def calcularAlimentacion (sinq : ℚ → ℚ) (r : Ruido) (dt : ℚ) (s : Sim) :
    Sim × ℚ × ℚ :=
  let t := s.estado.t
  let F_chancado :=
    if t < 1 / 2 then
      let factor_arranque := min 1 (t / (1 / 2))
      let objetivo_arranque := s.objetivos.F_target * (1 / 2) * factor_arranque
      objetivo_arranque * (1 + r.ruido_arranque)
    else
      let tau_F : ℚ := 1
      let diferencia := s.objetivos.F_target - s.estado.F_actual
      let cambio_max := s.objetivos.F_target * (1 / 10) * dt
      let cambio := clip (diferencia / tau_F * dt) (-cambio_max) cambio_max
      let F_base := s.estado.F_actual + cambio
      let variacion_total :=
        if 1 < t then
          let onda1 := (3 / 100) * sinq ((1 / 5) * t)
          let onda2 := (1 / 50) * sinq ((1 / 2) * t + 6 / 5)
          let onda3 := (3 / 200) * sinq ((11 / 10) * t + 5 / 2)
          let v := onda1 + onda2 + onda3 + r.ruido
          v * (1 - min 1 (|diferencia| / s.objetivos.F_target))
        else 0
      F_base * (1 + variacion_total)
  let F_out := clip F_chancado 500 5000
  let L_chancado :=
    if t < 1 / 2 then
      let factor_arranque_L := min 1 (t / (1 / 2))
      let objetivo_arranque_L :=
        s.objetivos.L_target * (3 / 10 + (3 / 10) * factor_arranque_L)
      objetivo_arranque_L * (1 + r.ruido_arranque_L)
    else
      let tau_L : ℚ := 3 / 2
      let diferencia_L := s.objetivos.L_target - s.estado.L_actual
      let cambio_max_L := s.objetivos.L_target * (1 / 20) * dt
      let cambio_L := clip (diferencia_L / tau_L * dt) (-cambio_max_L) cambio_max_L
      let L_base := s.estado.L_actual + cambio_L
      let variacion_L_total :=
        if 3 / 2 < t then
          let onda_L1 := (1 / 40) * sinq ((2 / 5) * t + 4 / 5)
          let onda_L2 := (3 / 200) * sinq ((9 / 10) * t + 3 / 2)
          let onda_L3 := (1 / 100) * sinq ((13 / 10) * t + 3)
          let v := onda_L1 + onda_L2 + onda_L3 + r.ruido_L
          v * (1 - min 1 (|diferencia_L| / s.objetivos.L_target))
        else 0
      L_base * (1 + variacion_L_total)
  let L_out := clip L_chancado (3 / 1000) (3 / 200)
  ({ s with estado := { s.estado with F_actual := F_out, L_actual := L_out } },
   F_out, L_out)

/-- `SimuladorSAG.calcular_recirculacion(F_chancado_actual)`: appends to the
delay buffers, then either reads the delayed feed (nearest absolute time) or
ramps the current feed when not enough history has passed. -/
def calcularRecirculacion (s : Sim) (Fc : ℚ) : Sim × ℚ :=
  let bF := pushCap 10000 s.buffer_F Fc
  let bt := pushCap 10000 s.buffer_t s.estado.t
  let s' := { s with buffer_F := bF, buffer_t := bt }
  let tau_rec_horas := s.params.tau_recirculacion / 60
  let tiempo_pasado := s.estado.t - tau_rec_horas
  let valor :=
    if 0 < bt.length ∧ 0 < tiempo_pasado then
      let idx := idxMinAbs bt tiempo_pasado
      if idx < bF.length then
        s.params.fraccion_recirculacion * bF.getD idx 0
      else
        s.params.fraccion_recirculacion * Fc * min 1 (s.estado.t / tau_rec_horas)
    else
      s.params.fraccion_recirculacion * Fc * min 1 (s.estado.t / tau_rec_horas)
  (s', valor)

/-- `SimuladorSAG.calcular_finos(F_descarga, F_sobre_tamano)`. -/
def calcularFinos (expq : ℚ → ℚ) (t tauFinos Fdescarga FsobreTamano : ℚ) : ℚ :=
  let tau_finos_horas := tauFinos / 60
  let F0 := Fdescarga - FsobreTamano
  let F1 :=
    if t < tau_finos_horas then F0 * (t / tau_finos_horas)
    else if t < tau_finos_horas + 1 then
      F0 * (1 - (3 / 10) * expq (-((t - tau_finos_horas) / (3 / 10))))
    else F0
  max 0 F1

/-- The solids-mass update of one `paso_simulacion` in isolation, for a given
total feed `F` (steps 6, 9 and 10 of the source applied to `M_sag`):
discharge `k*M`, Euler increment clipped at 2 percent of `max(|M|, 10)`, then
the 10 t floor. -/
def millMasaStep (k F M : ℚ) : ℚ :=
  let mc := (2 / 100) * max |M| 10
  max 10 (M + clip ((F - k * M) * dtSim) (-mc) mc)

/-- The dictionary returned by `paso_simulacion`. -/
structure Salida where
  tiempo : ℚ
  M_sag : ℚ
  W_sag : ℚ
  M_cu_sag : ℚ
  F_chancado : ℚ
  L_chancado : ℚ
  F_finos : ℚ
  F_sobre_tamano : ℚ
  F_alimentacion_total : ℚ
  F_descarga : ℚ
  L_sag : ℚ
  H_sag : ℚ
deriving DecidableEq

/-- `SimuladorSAG.paso_simulacion()`: one simulation step, returning the
updated simulator and the state dictionary the method returns. -/
def paso (sinq expq : ℚ → ℚ) (r : Ruido) (s : Sim) : Sim × Salida :=
  let a := calcularAlimentacion sinq r dtSim s
  let s1 := a.1
  let F_chancado := a.2.1
  let L_chancado := a.2.2
  let b := calcularRecirculacion s1 F_chancado
  let s2 := b.1
  let F_sobre_tamano := b.2
  let F_alimentacion_total := F_chancado + F_sobre_tamano
  let M_sag := s2.estado.M_sag
  let W_sag := s2.estado.W_sag
  let M_cu_sag := s2.estado.M_cu_sag
  let props :=
    if 1 / 1000 < M_sag then (M_cu_sag / M_sag, W_sag / (M_sag + W_sag))
    else (L_chancado, s2.params.humedad_sag)
  let L_sag := props.1
  let H_sag := props.2
  let W_chancado :=
    F_chancado * (s2.params.humedad_alimentacion / (1 - s2.params.humedad_alimentacion))
  let W_recirculacion :=
    F_sobre_tamano * (s2.params.humedad_recirculacion / (1 - s2.params.humedad_recirculacion))
  let L_alimentacion_total :=
    if 0 < F_alimentacion_total then
      (L_chancado * F_chancado + L_sag * F_sobre_tamano) / F_alimentacion_total
    else L_chancado
  let agua_necesaria :=
    F_alimentacion_total * (s2.params.humedad_sag / (1 - s2.params.humedad_sag))
  let agua_disponible := W_chancado + W_recirculacion
  let W_adicional := max 0 (agua_necesaria - agua_disponible)
  let F_descarga := s2.params.k_descarga * M_sag
  let F_finos := calcularFinos expq s2.estado.t s2.params.tau_finos F_descarga F_sobre_tamano
  let W_descarga := if H_sag < 1 then F_descarga * (H_sag / (1 - H_sag)) else 0
  let dM_dt := F_alimentacion_total - F_descarga
  let dW_dt := W_chancado + W_recirculacion + W_adicional - W_descarga
  let dMcu_dt := L_alimentacion_total * F_alimentacion_total - L_sag * F_descarga
  let max_cambio_M := (2 / 100) * max |M_sag| 10
  let max_cambio_W := (2 / 100) * max |W_sag| 5
  let max_cambio_Mcu := (2 / 100) * max |M_cu_sag| (1 / 10)
  let cambio_M := clip (dM_dt * dtSim) (-max_cambio_M) max_cambio_M
  let cambio_W := clip (dW_dt * dtSim) (-max_cambio_W) max_cambio_W
  let cambio_Mcu := clip (dMcu_dt * dtSim) (-max_cambio_Mcu) max_cambio_Mcu
  let M' := max 10 (M_sag + cambio_M)
  let W' := max 1 (W_sag + cambio_W)
  let Mcu' := max 0 (M_cu_sag + cambio_Mcu)
  let t' := s2.estado.t + dtSim
  let est' := { s2.estado with
    M_sag := M', W_sag := W', M_cu_sag := Mcu', t := t', H_sag := H_sag }
  let hist' :=
    if (⌊t' / dtSim⌋ % 6 == 0) then
      { t := pushHist s2.historial.t t'
        M_sag := pushHist s2.historial.M_sag M'
        W_sag := pushHist s2.historial.W_sag W'
        M_cu_sag := pushHist s2.historial.M_cu_sag Mcu'
        F_chancado := pushHist s2.historial.F_chancado F_chancado
        L_chancado := pushHist s2.historial.L_chancado L_chancado
        F_finos := pushHist s2.historial.F_finos F_finos
        F_sobre_tamano := pushHist s2.historial.F_sobre_tamano F_sobre_tamano
        F_target := pushHist s2.historial.F_target s2.objetivos.F_target
        L_target := pushHist s2.historial.L_target s2.objetivos.L_target
        F_descarga := pushHist s2.historial.F_descarga F_descarga
        L_sag := pushHist s2.historial.L_sag L_sag
        H_sag := pushHist s2.historial.H_sag H_sag }
    else s2.historial
  ({ s2 with estado := est', historial := hist' },
   { tiempo := t'
     M_sag := M'
     W_sag := W'
     M_cu_sag := Mcu'
     F_chancado := F_chancado
     L_chancado := L_chancado
     F_finos := F_finos
     F_sobre_tamano := F_sobre_tamano
     F_alimentacion_total := F_alimentacion_total
     F_descarga := F_descarga
     L_sag := L_sag
     H_sag := H_sag })

/-- Iterate `paso_simulacion` `n` times, drawing the step noise from the
stream `rs`. -/
def stepN (sinq expq : ℚ → ℚ) (rs : ℕ → Ruido) : ℕ → Sim → Sim
  | 0, s => s
  | n + 1, s => (paso sinq expq (rs n) (stepN sinq expq rs n s)).1

/-- `SimuladorSAG.actualizar_objetivo(tipo, valor)`: the Python method mutates
one target or raises `ValueError`; here the raise is an `Except.error` (the
quotation marks of the Python message are dropped). -/
def actualizarObjetivo (s : Sim) (tipo : String) (valor : ℚ) : Except String Sim :=
  if tipo = "F" then
    Except.ok { s with objetivos := { s.objetivos with F_target := valor } }
  else if tipo = "L" then
    Except.ok { s with objetivos := { s.objetivos with L_target := valor } }
  else
    Except.error ("Tipo " ++ tipo ++ " no reconocido. Use F o L.")

/-- `SimuladorSAG.reset()`: re-run `__init__` on the saved parameters and
re-assign the nominal targets. -/
def reset (s : Sim) : Sim :=
  let p := s.params
  let s' := init p
  { s' with objetivos := { F_target := p.F_nominal, L_target := p.L_nominal } }

/-! ### The variant step of `app_streamlit.py` (`simular_paso`) -/

/-- The parameter dictionary of `app_streamlit.py`. -/
structure ParamsApp where
  F_nominal : ℚ
  L_nominal : ℚ
  fraccion_recirculacion : ℚ
  humedad_alimentacion : ℚ
  humedad_sag : ℚ
  humedad_recirculacion : ℚ
  k_descarga : ℚ
  tau_recirculacion : ℚ
  tau_finos : ℚ
  tau_arranque : ℚ
deriving DecidableEq

/-- `st.session_state.estado` of `app_streamlit.py`. -/
structure EstadoApp where
  tiempo : ℚ
  M_sag : ℚ
  W_sag : ℚ
  M_cu_sag : ℚ
  F_chancado : ℚ
  L_chancado : ℚ
  F_finos : ℚ
  F_sobre_tamano : ℚ
  H_sag : ℚ
  variacion_actual : ℚ
  ley_variacion : ℚ
deriving DecidableEq

/-- The values drawn from `np.random` during one `simular_paso`:
`rapida` is the `normal(0, 1)` draw, `pert1`/`pert2` record whether the two
`np.random.random()` threshold tests fired, `u1`/`u2` are the corresponding
uniform draws, and `ruidoLey` is the `normal(0, 0.5)` draw in the grade law. -/
structure RuidoApp where
  rapida : ℚ
  pert1 : Bool
  u1 : ℚ
  pert2 : Bool
  u2 : ℚ
  ruidoLey : ℚ
deriving DecidableEq

/-- `st.session_state.historial` of `app_streamlit.py`. -/
structure HistorialApp where
  t : List ℚ
  M_sag : List ℚ
  W_sag : List ℚ
  M_cu_sag : List ℚ
  F_chancado : List ℚ
  L_chancado : List ℚ
  F_finos : List ℚ
  F_sobre_tamano : List ℚ
  F_target : List ℚ
  L_target : List ℚ
deriving DecidableEq

/-- Append to one history series of the app, keeping the last
`max_puntos = 24*360` entries. -/
def pushHistApp (l : List ℚ) (x : ℚ) : List ℚ :=
  let l' := l ++ [x]
  if 24 * 360 < l'.length then l'.drop (l'.length - 24 * 360) else l'

/-- `simular_paso()` of `app_streamlit.py`: one step of the Streamlit variant,
acting on `(estado, historial)` with the targets and parameters given.  Note
that this variant divides the solids and copper flow derivatives by 60 before
multiplying by `dt` (its comments call this a conversion to t/min). -/
def simularPaso (sinq expq : ℚ → ℚ) (r : RuidoApp) (obj : Objetivos)
    (p : ParamsApp) (e : EstadoApp) (h : HistorialApp) : EstadoApp × HistorialApp :=
  let dt : ℚ := 1 / 60
  let t' := e.tiempo + dt
  let factor_arranque := if 0 < t' then 1 - expq (-(t' / p.tau_arranque)) else 0
  let varComp :=
    if 2 < t' then
      let lenta := (1 / 50) * sinq ((3 / 10) * t') + (1 / 100) * sinq ((7 / 10) * t' + 1)
      let media := (1 / 100) * sinq (2 * t' + 2)
      let rapida := (1 / 200) * r.rapida
      let perturbacion :=
        (if r.pert1 then r.u1 else 0) + (if r.pert2 then r.u2 else 0)
      lenta + media + rapida + perturbacion
    else 0
  let random_factor := 1 + varComp
  let tau_F : ℚ := 1 / 2
  let F1 := e.F_chancado + (obj.F_target - e.F_chancado) / tau_F * dt
  let F2 := F1 * factor_arranque * random_factor
  let F3 := clip F2 ((1 / 10) * obj.F_target) ((3 / 2) * obj.F_target)
  let leyPar :=
    if 0 < t' then
      let ley_variacion :=
        (1 / 50) * sinq ((1 / 2) * t' + 3) + (1 / 100) * r.ruidoLey
      (clip (p.L_nominal * (1 + (2 / 25) * ley_variacion))
        ((7 / 10) * p.L_nominal) ((13 / 10) * p.L_nominal), ley_variacion)
    else (e.L_chancado, e.ley_variacion)
  let tau_L : ℚ := 2
  let L2 := leyPar.1 + (obj.L_target - leyPar.1) / tau_L * dt
  let variacion_actual' := (random_factor - 1) * 100
  let F_sobre :=
    if p.tau_recirculacion < t' then
      p.fraccion_recirculacion * F3 * (9 / 10)
    else 0
  let F_alimentacion_total := F3 + F_sobre
  let F_descarga := p.k_descarga * e.M_sag
  let F_finos :=
    if p.tau_finos < t' then
      let f0 := max (F_descarga - F_sobre) 0
      if t' < p.tau_finos + 1 then
        f0 * (1 - expq (-((t' - p.tau_finos) / (3 / 10))))
      else f0
    else 0
  let dM_dt := (F_alimentacion_total - F_descarga) / 60
  let M' := max (e.M_sag + dM_dt * dt) 10
  let L_sag := if 1 / 10 < M' then e.M_cu_sag / M' else L2
  let entrada_cu := (L2 * F3 + L_sag * F_sobre) / 60
  let salida_cu := L_sag * F_descarga / 60
  let dMcu_dt := entrada_cu - salida_cu
  let Mcu' := max (e.M_cu_sag + dMcu_dt * dt) (1 / 1000)
  let W' := M' * (p.humedad_sag / (1 - p.humedad_sag))
  let H' := W' / max (M' + W') (1 / 1000)
  let e' : EstadoApp :=
    { tiempo := t'
      M_sag := M'
      W_sag := W'
      M_cu_sag := Mcu'
      F_chancado := F3
      L_chancado := L2
      F_finos := F_finos
      F_sobre_tamano := F_sobre
      H_sag := H'
      variacion_actual := variacion_actual'
      ley_variacion := leyPar.2 }
  let h' :=
    if (⌊t' / dt⌋ % 10 == 0) then
      let h1 : HistorialApp :=
        { t := pushHistApp h.t t'
          M_sag := pushHistApp h.M_sag M'
          W_sag := pushHistApp h.W_sag W'
          M_cu_sag := pushHistApp h.M_cu_sag Mcu'
          F_chancado := pushHistApp h.F_chancado F3
          L_chancado := pushHistApp h.L_chancado L2
          F_finos := pushHistApp h.F_finos F_finos
          F_sobre_tamano := pushHistApp h.F_sobre_tamano F_sobre
          F_target := h.F_target ++ [obj.F_target]
          L_target := h.L_target ++ [obj.L_target] }
      if 24 * 360 < h1.F_target.length then
        { h1 with
          F_target := h1.F_target.drop (h1.F_target.length - 24 * 360)
          L_target := h1.L_target.drop (h1.L_target.length - 24 * 360) }
      else h1
    else h
  (e', h')

/-! ### Concrete fixtures used by the witnesses and counterexamples -/

/-- Oscillator identically zero (variability disabled). -/
def sinZero : ℚ → ℚ := fun _ => 0

/-- Exponential stub (only its value at the sampled points matters; the
fixtures below never reach a branch that uses it). -/
def expZero : ℚ → ℚ := fun _ => 0

/-- All noise draws zero. -/
def ruidoCero : Ruido :=
  { ruido_arranque := 0, ruido := 0, ruido_arranque_L := 0, ruido_L := 0 }

/-- A state at `t = 89` simulated minutes with the feed at its nominal
2000 t/h. -/
def estadoC4 : Estado :=
  { t := 89 / 60, M_sag := 4000, W_sag := 1700, M_cu_sag := 28
    F_actual := 2000, L_actual := 9 / 1250, H_sag := 3 / 10 }

/-- A simulator under default parameters in the state `estadoC4`. -/
def simC4 : Sim :=
  { params := crearParametrosDefault
    estado := estadoC4
    objetivos := { F_target := 2000, L_target := 9 / 1250 }
    buffer_F := [0]
    buffer_t := [0]
    historial := historialVacio }

/-- A simulator at `t = 36` minutes with the feed at 500 t/h, far below its
2000 t/h target. -/
def simC6 : Sim :=
  { simC4 with estado := { estadoC4 with t := 3 / 5, F_actual := 500 } }

/-- The steady state of the default parameters: feed at target, mass at
`(1 + recirculation ramp) * 2000 / k`, moisture at 30 percent, grade
uniform at 0.72 percent. -/
def estadoEq : Estado :=
  { t := 3 / 4, M_sag := 4220, W_sag := 12660 / 7, M_cu_sag := 3798 / 125
    F_actual := 2000, L_actual := 9 / 1250, H_sag := 3 / 10 }

/-- A simulator under default parameters sitting at the steady state. -/
def simEq : Sim := { simC4 with estado := estadoEq }

/-- `dM_dt` of step 9 of `paso_simulacion`, recomputed from the returned
dictionary: total feed minus discharge. -/
def dMdtPaso (o : Salida) : ℚ := o.F_alimentacion_total - o.F_descarga

/-- `dW_dt` of steps 5, 8 and 9 of `paso_simulacion`, recomputed from the
returned dictionary: feed water plus recirculation water plus make-up water
minus discharge water. -/
def dWdtPaso (p : Params) (o : Salida) : ℚ :=
  let W_chancado :=
    o.F_chancado * (p.humedad_alimentacion / (1 - p.humedad_alimentacion))
  let W_recirculacion :=
    o.F_sobre_tamano * (p.humedad_recirculacion / (1 - p.humedad_recirculacion))
  let agua_necesaria :=
    o.F_alimentacion_total * (p.humedad_sag / (1 - p.humedad_sag))
  let W_adicional := max 0 (agua_necesaria - (W_chancado + W_recirculacion))
  let W_descarga := if o.H_sag < 1 then o.F_descarga * (o.H_sag / (1 - o.H_sag)) else 0
  W_chancado + W_recirculacion + W_adicional - W_descarga

/-- `dMcu_dt` of steps 5 and 9 of `paso_simulacion`, recomputed from the
returned dictionary: blended incoming copper minus outgoing copper. -/
def dMcudtPaso (o : Salida) : ℚ :=
  let L_alimentacion_total :=
    if 0 < o.F_alimentacion_total then
      (o.L_chancado * o.F_chancado + o.L_sag * o.F_sobre_tamano) / o.F_alimentacion_total
    else o.L_chancado
  L_alimentacion_total * o.F_alimentacion_total - o.L_sag * o.F_descarga

/-! ### Helper lemmas -/

lemma clip_le (x lo hi : ℚ) : clip x lo hi ≤ hi := min_le_right _ _

lemma le_clip (x lo hi : ℚ) (h : lo ≤ hi) : lo ≤ clip x lo hi :=
  le_min (le_max_right _ _) h

lemma clip_eq_of_abs_le (x c : ℚ) (h : |x| ≤ c) : clip x (-c) c = x := by
  rcases abs_le.mp h with ⟨h1, h2⟩
  unfold clip
  rw [max_eq_left h1, min_eq_left h2]

/-- One clipped relaxation step towards `0` shrinks the error `e` by
`min (a*|e|) (1/5)` whenever the clip radius `c` is at least `1/5` and the
relaxation gain `a` is between `0` and `1`. -/
lemma clip_contract (a e c : ℚ) (ha0 : 0 ≤ a) (ha1 : a ≤ 1) (hc : 1 / 5 ≤ c) :
    |e + clip (-(a * e)) (-c) c| ≤ |e| - min (a * |e|) (1 / 5) := by
  have hc0 : (0 : ℚ) ≤ c := by linarith
  rcases le_total 0 e with he | he
  · have hae0 : 0 ≤ a * e := mul_nonneg ha0 he
    have haee : a * e ≤ e := by nlinarith [mul_nonneg (by linarith : (0 : ℚ) ≤ 1 - a) he]
    rw [abs_of_nonneg he]
    rcases le_total (a * e) c with hcl | hcl
    · have h1 : clip (-(a * e)) (-c) c = -(a * e) := by
        unfold clip
        rw [max_eq_left (neg_le_neg hcl), min_eq_left (by linarith)]
      rw [h1, abs_of_nonneg (by linarith)]
      have := min_le_left (a * e) (1 / 5)
      linarith
    · have h1 : clip (-(a * e)) (-c) c = -c := by
        unfold clip
        rw [max_eq_right (neg_le_neg hcl), min_eq_left (by linarith)]
      rw [h1, abs_of_nonneg (by linarith)]
      have := min_le_right (a * e) (1 / 5)
      linarith
  · have hae0 : a * e ≤ 0 := mul_nonpos_of_nonneg_of_nonpos ha0 he
    have haee : e ≤ a * e := by
      nlinarith [mul_nonneg (by linarith : (0 : ℚ) ≤ 1 - a) (by linarith : (0 : ℚ) ≤ -e)]
    rw [abs_of_nonpos he, mul_neg]
    rcases le_total (-(a * e)) c with hcl | hcl
    · have h1 : clip (-(a * e)) (-c) c = -(a * e) := by
        unfold clip
        rw [max_eq_left (by linarith), min_eq_left hcl]
      rw [h1, abs_of_nonpos (by linarith)]
      have := min_le_left (-(a * e)) (1 / 5)
      linarith
    · have h1 : clip (-(a * e)) (-c) c = c := by
        unfold clip
        rw [max_eq_left (by linarith), min_eq_right hcl]
      rw [h1, abs_of_nonpos (by linarith)]
      have := min_le_right (-(a * e)) (1 / 5)
      linarith

/-- One `millMasaStep` with constant total feed `F` moves `M` strictly
towards the equilibrium `F / k`: the error decreases by at least
`min (k/60 * error) (1/5)` (the `1/5` floor comes from the 2 percent clip
radius being at least `0.02 * 10`). -/
lemma millMasaStep_err (k F M : ℚ) (hk : 0 < k) (hk60 : k ≤ 60)
    (hT : 10 ≤ F / k) :
    |millMasaStep k F M - F / k|
      ≤ |M - F / k| - min (k / 60 * |M - F / k|) (1 / 5) := by
  have hk0 : k ≠ 0 := ne_of_gt hk
  have hdt : dtSim = 1 / 60 := rfl
  have harg : (F - k * M) * dtSim = -(k / 60 * (M - F / k)) := by
    rw [hdt]
    field_simp
    ring
  have hmc : (1 : ℚ) / 5 ≤ (2 / 100) * max |M| 10 := by
    have h10 : (10 : ℚ) ≤ max |M| 10 := le_max_right _ _
    linarith
  have hfloor : ∀ x : ℚ, |max 10 x - F / k| ≤ |x - F / k| := by
    intro x
    rcases le_total 10 x with h | h
    · rw [max_eq_right h]
    · rw [max_eq_left h, abs_of_nonpos (by linarith), abs_of_nonpos (by linarith)]
      linarith
  calc |millMasaStep k F M - F / k|
      ≤ |(M + clip ((F - k * M) * dtSim) (-((2 / 100) * max |M| 10))
            ((2 / 100) * max |M| 10)) - F / k| := hfloor _
    _ = |(M - F / k) + clip (-(k / 60 * (M - F / k)))
            (-((2 / 100) * max |M| 10)) ((2 / 100) * max |M| 10)| := by
        rw [harg]
        congr 1
        ring
    _ ≤ |M - F / k| - min (k / 60 * |M - F / k|) (1 / 5) :=
        clip_contract (k / 60) (M - F / k) ((2 / 100) * max |M| 10)
          (by positivity) (by linarith) hmc

/-- Geometric-or-linear decrease of the solids-mass error along the
iteration of `millMasaStep` with constant feed. -/
lemma millIter_bound (k F M0 : ℚ) (hk : 0 < k) (hk60 : k ≤ 60)
    (hT : 10 ≤ F / k) (n : ℕ) :
    |(millMasaStep k F)^[n] M0 - F / k|
      ≤ max ((F / k) / 100)
          (|M0 - F / k| - n * min (k / 60 * ((F / k) / 100)) (1 / 5)) := by
  induction n with
  | zero => simp
  | succ n ih =>
    rw [Function.iterate_succ_apply']
    have hstep := millMasaStep_err k F ((millMasaStep k F)^[n] M0) hk hk60 hT
    have hδ0 : 0 ≤ min (k / 60 * ((F / k) / 100)) (1 / 5) := by
      apply le_min
      · have : (0 : ℚ) ≤ k / 60 := by positivity
        have : (0 : ℚ) ≤ (F / k) / 100 := by linarith
        positivity
      · norm_num
    rcases le_total |(millMasaStep k F)^[n] M0 - F / k| ((F / k) / 100) with hcase | hcase
    · have hmin0 : 0 ≤ min (k / 60 * |(millMasaStep k F)^[n] M0 - F / k|) (1 / 5) := by
        apply le_min
        · positivity
        · norm_num
      have : |millMasaStep k F ((millMasaStep k F)^[n] M0) - F / k| ≤ (F / k) / 100 := by
        linarith
      exact le_trans this (le_max_left _ _)
    · have h1 : min (k / 60 * ((F / k) / 100)) (1 / 5)
          ≤ min (k / 60 * |(millMasaStep k F)^[n] M0 - F / k|) (1 / 5) := by
        apply min_le_min _ (le_refl _)
        exact mul_le_mul_of_nonneg_left hcase (by positivity)
      have h2 : |millMasaStep k F ((millMasaStep k F)^[n] M0) - F / k|
          ≤ |(millMasaStep k F)^[n] M0 - F / k|
            - min (k / 60 * ((F / k) / 100)) (1 / 5) := by
        linarith
      rcases le_total (|M0 - F / k| - n * min (k / 60 * ((F / k) / 100)) (1 / 5))
          ((F / k) / 100) with hmx | hmx
      · have he : |(millMasaStep k F)^[n] M0 - F / k| ≤ (F / k) / 100 := by
          calc |(millMasaStep k F)^[n] M0 - F / k|
              ≤ max ((F / k) / 100)
                  (|M0 - F / k| - n * min (k / 60 * ((F / k) / 100)) (1 / 5)) := ih
            _ = (F / k) / 100 := max_eq_left hmx
        have : |millMasaStep k F ((millMasaStep k F)^[n] M0) - F / k| ≤ (F / k) / 100 := by
          linarith
        exact le_trans this (le_max_left _ _)
      · have he : |(millMasaStep k F)^[n] M0 - F / k|
            ≤ |M0 - F / k| - n * min (k / 60 * ((F / k) / 100)) (1 / 5) := by
          calc |(millMasaStep k F)^[n] M0 - F / k|
              ≤ max ((F / k) / 100)
                  (|M0 - F / k| - n * min (k / 60 * ((F / k) / 100)) (1 / 5)) := ih
            _ = |M0 - F / k| - n * min (k / 60 * ((F / k) / 100)) (1 / 5) :=
                max_eq_right hmx
        refine le_trans ?_ (le_max_right _ _)
        push_cast
        linarith

/-! ### Claims -/

/-- Claim C1: in every simulation step the discharge equals
`k_descarga * M_sag` (the linear outflow law), the solids-mass update of the
step is exactly `millMasaStep` applied to the total feed of the step, and for
every constant total feed `F` the iterated solids-mass update converges to
within 1 percent of the equilibrium `F / k_descarga` after enough steps.
The convergence part holds for every admissible `k` (positive, with
`k * dt ≤ 1`) and every equilibrium at or above the 10 t floor; the feed is
held constant, which is the settled-transient regime of the claim. -/
theorem claim_C1 :
    (∀ (sinq expq : ℚ → ℚ) (r : Ruido) (s : Sim),
      (paso sinq expq r s).2.F_descarga = s.params.k_descarga * s.estado.M_sag)
    ∧ (∀ (sinq expq : ℚ → ℚ) (r : Ruido) (s : Sim),
      (paso sinq expq r s).1.estado.M_sag
        = millMasaStep s.params.k_descarga
            (paso sinq expq r s).2.F_alimentacion_total s.estado.M_sag)
    ∧ (∀ k F M0 : ℚ, 0 < k → k ≤ 60 → 10 ≤ F / k →
      ∃ N : ℕ, ∀ n : ℕ, N ≤ n →
        |(millMasaStep k F)^[n] M0 - F / k| ≤ (F / k) / 100) := by
  refine ⟨fun _ _ _ _ => rfl, fun _ _ _ _ => rfl, fun k F M0 hk hk60 hT => ?_⟩
  have hδpos : 0 < min (k / 60 * ((F / k) / 100)) (1 / 5) := by
    apply lt_min
    · have h1 : (0 : ℚ) < k / 60 := by positivity
      have h2 : (0 : ℚ) < (F / k) / 100 := by linarith
      positivity
    · norm_num
  refine ⟨⌈|M0 - F / k| / min (k / 60 * ((F / k) / 100)) (1 / 5)⌉₊, fun n hn => ?_⟩
  have hbound := millIter_bound k F M0 hk hk60 hT n
  have h1 : |M0 - F / k|
      ≤ (⌈|M0 - F / k| / min (k / 60 * ((F / k) / 100)) (1 / 5)⌉₊ : ℚ)
        * min (k / 60 * ((F / k) / 100)) (1 / 5) := by
    rw [← div_le_iff₀ hδpos]
    exact Nat.le_ceil _
  have h2 : (⌈|M0 - F / k| / min (k / 60 * ((F / k) / 100)) (1 / 5)⌉₊ : ℚ)
        * min (k / 60 * ((F / k) / 100)) (1 / 5)
      ≤ (n : ℚ) * min (k / 60 * ((F / k) / 100)) (1 / 5) := by
    apply mul_le_mul_of_nonneg_right _ (le_of_lt hδpos)
    exact_mod_cast hn
  have h3 : |M0 - F / k| - (n : ℚ) * min (k / 60 * ((F / k) / 100)) (1 / 5)
      ≤ (F / k) / 100 := by linarith
  calc |(millMasaStep k F)^[n] M0 - F / k|
      ≤ max ((F / k) / 100)
        (|M0 - F / k| - (n : ℚ) * min (k / 60 * ((F / k) / 100)) (1 / 5)) := hbound
    _ = (F / k) / 100 := max_eq_left h3

/-- Witness for claim C1: the discharge law and the `millMasaStep`
decomposition evaluated at the steady-state fixture, and the convergence
statement instantiated at the default discharge constant `k = 1/2` with the
constant steady total feed `2220 = 1.11 * 2000` t/h from the 100 t start
mass. -/
theorem claim_C1_witness :
    (paso sinZero expZero ruidoCero simEq).2.F_descarga
        = simEq.params.k_descarga * simEq.estado.M_sag
    ∧ (paso sinZero expZero ruidoCero simEq).1.estado.M_sag
        = millMasaStep simEq.params.k_descarga
            (paso sinZero expZero ruidoCero simEq).2.F_alimentacion_total
            simEq.estado.M_sag
    ∧ (0 < (1 / 2 : ℚ)) ∧ ((1 / 2 : ℚ) ≤ 60) ∧ ((10 : ℚ) ≤ 2220 / (1 / 2))
    ∧ ∃ N : ℕ, ∀ n : ℕ, N ≤ n →
        |(millMasaStep (1 / 2) 2220)^[n] 100 - 2220 / (1 / 2)|
          ≤ (2220 / (1 / 2)) / 100 :=
  ⟨claim_C1.1 sinZero expZero ruidoCero simEq,
   claim_C1.2.1 sinZero expZero ruidoCero simEq,
   by norm_num, by norm_num, by norm_num,
   claim_C1.2.2 (1 / 2) 2220 100 (by norm_num) (by norm_num) (by norm_num)⟩

/-- Claim C2, counterexample: on the very first step from the constructed
initial state (default parameters, all noise zero) the solids increment is NOT
the explicit-Euler increment `dM_dt * dt`: the feed clamp makes the total feed
500 t/h and the discharge 50 t/h, so `dM_dt * dt = 450/60 = 7.5 t`, but the
2 percent-per-step limiter cuts the applied change to 2 t (mass 102, not
107.5). -/
theorem claim_C2_counterexample :
    (paso sinZero expZero ruidoCero (init crearParametrosDefault)).1.estado.M_sag = 102
    ∧ (init crearParametrosDefault).estado.M_sag
        + ((paso sinZero expZero ruidoCero (init crearParametrosDefault)).2.F_alimentacion_total
            - (paso sinZero expZero ruidoCero
                (init crearParametrosDefault)).2.F_descarga) * dtSim = 215 / 2
    ∧ (102 : ℚ) ≠ 215 / 2 := by
  refine ⟨?_, ?_, by norm_num⟩
  · norm_num [paso, calcularAlimentacion, calcularRecirculacion, calcularFinos, clip,
      pushCap, idxMinAbs, idxMinAux, dtSim, init, crearParametrosDefault, historialVacio,
      sinZero, expZero, ruidoCero, pushHist, abs_of_nonneg, abs_of_nonpos]
  · norm_num [paso, calcularAlimentacion, calcularRecirculacion, calcularFinos, clip,
      pushCap, idxMinAbs, idxMinAux, dtSim, init, crearParametrosDefault, historialVacio,
      sinZero, expZero, ruidoCero, pushHist, abs_of_nonneg, abs_of_nonpos]

/-- Claim C2, amended: one step of `SimuladorSAG.paso_simulacion` advances
each inventory by the explicit-Euler increment `d(inventory)/dt * dt` (flows
in t/h, `dt = 1/60` h, no division by 60) ONLY when that increment does not
exceed the 2-percent-per-step stability limiter
`0.02 * max(|inventory|, floor)`; the applied increment is the Euler increment
clipped to that band, followed by the physical floor.  The Streamlit variant
`simular_paso` additionally divides the solids flow balance by 60 inside the
ODE, unconditionally. -/
theorem claim_C2 :
    (∀ (sinq expq : ℚ → ℚ) (r : Ruido) (s : Sim),
      |dMdtPaso (paso sinq expq r s).2 * dtSim| ≤ 2 / 100 * max |s.estado.M_sag| 10 →
      (paso sinq expq r s).1.estado.M_sag
        = max 10 (s.estado.M_sag + dMdtPaso (paso sinq expq r s).2 * dtSim))
    ∧ (∀ (sinq expq : ℚ → ℚ) (r : Ruido) (s : Sim),
      |dWdtPaso s.params (paso sinq expq r s).2 * dtSim|
          ≤ 2 / 100 * max |s.estado.W_sag| 5 →
      (paso sinq expq r s).1.estado.W_sag
        = max 1 (s.estado.W_sag + dWdtPaso s.params (paso sinq expq r s).2 * dtSim))
    ∧ (∀ (sinq expq : ℚ → ℚ) (r : Ruido) (s : Sim),
      |dMcudtPaso (paso sinq expq r s).2 * dtSim|
          ≤ 2 / 100 * max |s.estado.M_cu_sag| (1 / 10) →
      (paso sinq expq r s).1.estado.M_cu_sag
        = max 0 (s.estado.M_cu_sag + dMcudtPaso (paso sinq expq r s).2 * dtSim))
    ∧ (∀ (sinq expq : ℚ → ℚ) (r : RuidoApp) (obj : Objetivos) (p : ParamsApp)
        (e : EstadoApp) (h : HistorialApp),
      (simularPaso sinq expq r obj p e h).1.M_sag
        = max (e.M_sag
            + ((simularPaso sinq expq r obj p e h).1.F_chancado
                + (simularPaso sinq expq r obj p e h).1.F_sobre_tamano
                - p.k_descarga * e.M_sag) / 60 * (1 / 60)) 10) := by
  refine ⟨fun sinq expq r s h => ?_, fun sinq expq r s h => ?_,
    fun sinq expq r s h => ?_, fun _ _ _ _ _ _ _ => rfl⟩
  · calc (paso sinq expq r s).1.estado.M_sag
        = max 10 (s.estado.M_sag
            + clip (dMdtPaso (paso sinq expq r s).2 * dtSim)
                (-(2 / 100 * max |s.estado.M_sag| 10))
                (2 / 100 * max |s.estado.M_sag| 10)) := rfl
      _ = max 10 (s.estado.M_sag + dMdtPaso (paso sinq expq r s).2 * dtSim) := by
          rw [clip_eq_of_abs_le _ _ h]
  · calc (paso sinq expq r s).1.estado.W_sag
        = max 1 (s.estado.W_sag
            + clip (dWdtPaso s.params (paso sinq expq r s).2 * dtSim)
                (-(2 / 100 * max |s.estado.W_sag| 5))
                (2 / 100 * max |s.estado.W_sag| 5)) := rfl
      _ = max 1 (s.estado.W_sag + dWdtPaso s.params (paso sinq expq r s).2 * dtSim) := by
          rw [clip_eq_of_abs_le _ _ h]
  · calc (paso sinq expq r s).1.estado.M_cu_sag
        = max 0 (s.estado.M_cu_sag
            + clip (dMcudtPaso (paso sinq expq r s).2 * dtSim)
                (-(2 / 100 * max |s.estado.M_cu_sag| (1 / 10)))
                (2 / 100 * max |s.estado.M_cu_sag| (1 / 10))) := rfl
      _ = max 0 (s.estado.M_cu_sag + dMcudtPaso (paso sinq expq r s).2 * dtSim) := by
          rw [clip_eq_of_abs_le _ _ h]

/-- Witness for claim C2 at the steady-state fixture, where all three
derivatives are inside the 2 percent band (indeed zero), so the increments are
exactly the Euler increments. -/
theorem claim_C2_witness :
    (|dMdtPaso (paso sinZero expZero ruidoCero simEq).2 * dtSim|
        ≤ 2 / 100 * max |simEq.estado.M_sag| 10
      ∧ (paso sinZero expZero ruidoCero simEq).1.estado.M_sag
        = max 10 (simEq.estado.M_sag
            + dMdtPaso (paso sinZero expZero ruidoCero simEq).2 * dtSim))
    ∧ (|dWdtPaso simEq.params (paso sinZero expZero ruidoCero simEq).2 * dtSim|
        ≤ 2 / 100 * max |simEq.estado.W_sag| 5
      ∧ (paso sinZero expZero ruidoCero simEq).1.estado.W_sag
        = max 1 (simEq.estado.W_sag
            + dWdtPaso simEq.params (paso sinZero expZero ruidoCero simEq).2 * dtSim))
    ∧ (|dMcudtPaso (paso sinZero expZero ruidoCero simEq).2 * dtSim|
        ≤ 2 / 100 * max |simEq.estado.M_cu_sag| (1 / 10)
      ∧ (paso sinZero expZero ruidoCero simEq).1.estado.M_cu_sag
        = max 0 (simEq.estado.M_cu_sag
            + dMcudtPaso (paso sinZero expZero ruidoCero simEq).2 * dtSim)) := by
  have hM : |dMdtPaso (paso sinZero expZero ruidoCero simEq).2 * dtSim|
      ≤ 2 / 100 * max |simEq.estado.M_sag| 10 := by
    norm_num [dMdtPaso, paso, calcularAlimentacion, calcularRecirculacion, calcularFinos,
      clip, pushCap, idxMinAbs, idxMinAux, dtSim, simEq, simC4, estadoEq, estadoC4,
      crearParametrosDefault, historialVacio, sinZero, expZero, ruidoCero, pushHist,
      abs_of_nonneg, abs_of_nonpos]
  have hW : |dWdtPaso simEq.params (paso sinZero expZero ruidoCero simEq).2 * dtSim|
      ≤ 2 / 100 * max |simEq.estado.W_sag| 5 := by
    norm_num [dWdtPaso, paso, calcularAlimentacion, calcularRecirculacion, calcularFinos,
      clip, pushCap, idxMinAbs, idxMinAux, dtSim, simEq, simC4, estadoEq, estadoC4,
      crearParametrosDefault, historialVacio, sinZero, expZero, ruidoCero, pushHist,
      abs_of_nonneg, abs_of_nonpos]
  have hMcu : |dMcudtPaso (paso sinZero expZero ruidoCero simEq).2 * dtSim|
      ≤ 2 / 100 * max |simEq.estado.M_cu_sag| (1 / 10) := by
    norm_num [dMcudtPaso, paso, calcularAlimentacion, calcularRecirculacion, calcularFinos,
      clip, pushCap, idxMinAbs, idxMinAux, dtSim, simEq, simC4, estadoEq, estadoC4,
      crearParametrosDefault, historialVacio, sinZero, expZero, ruidoCero, pushHist,
      abs_of_nonneg, abs_of_nonpos]
  exact ⟨⟨hM, claim_C2.1 sinZero expZero ruidoCero simEq hM⟩,
    ⟨hW, claim_C2.2.1 sinZero expZero ruidoCero simEq hW⟩,
    ⟨hMcu, claim_C2.2.2.1 sinZero expZero ruidoCero simEq hMcu⟩⟩

/-- Claim C3: the constructed initial state satisfies the physical floors,
and after any positive number of steps from ANY state (so in particular after
every step of every trajectory) the state satisfies
`M_sag ≥ 10`, `W_sag ≥ 1`, `M_cu_sag ≥ 0`: the floors are re-applied by every
integration step, keeping the grade computation well defined. -/
theorem claim_C3 :
    (∀ p : Params, 10 ≤ (init p).estado.M_sag ∧ 1 ≤ (init p).estado.W_sag
      ∧ 0 ≤ (init p).estado.M_cu_sag)
    ∧ (∀ (sinq expq : ℚ → ℚ) (rs : ℕ → Ruido) (s : Sim) (n : ℕ),
      10 ≤ (stepN sinq expq rs (n + 1) s).estado.M_sag
      ∧ 1 ≤ (stepN sinq expq rs (n + 1) s).estado.W_sag
      ∧ 0 ≤ (stepN sinq expq rs (n + 1) s).estado.M_cu_sag) := by
  constructor
  · intro p
    refine ⟨?_, ?_, ?_⟩ <;> norm_num [init]
  · intro sinq expq rs s n
    exact ⟨le_max_left _ _, le_max_left _ _, le_max_left _ _⟩

/-- Claim C7, counterexample: construction with `k_descarga = -1` (an invalid
discharge constant) does not fail; it returns a fully formed simulator that
stores the invalid value and starts from the usual initial state. -/
theorem claim_C7_counterexample :
    (init { crearParametrosDefault with k_descarga := -1 }).params.k_descarga = -1
    ∧ ¬(0 < (init { crearParametrosDefault with k_descarga := -1 }).params.k_descarga)
    ∧ (init { crearParametrosDefault with k_descarga := -1 }).estado.M_sag = 100 := by
  refine ⟨rfl, ?_, rfl⟩
  norm_num [init, crearParametrosDefault]

/-- Claim C7, amended: `SimuladorSAG.__init__` performs no validation at all:
for EVERY parameter dictionary (including `k_descarga ≤ 0`, negative delays,
or zero time constants) construction succeeds and stores the parameters
unchanged. -/
theorem claim_C7 : ∀ p : Params, (init p).params = p := fun _ => rfl

/-- Claim C8: `actualizar_objetivo` sets `F_target` for kind `F`, sets
`L_target` for kind `L`, and for every other kind raises the descriptive
`ValueError` (modelled as `Except.error` carrying the message), producing no
updated simulator, so both targets are left unchanged. -/
theorem claim_C8 :
    ∀ (s : Sim) (v : ℚ),
      actualizarObjetivo s "F" v
          = Except.ok { s with objetivos := { s.objetivos with F_target := v } }
      ∧ actualizarObjetivo s "L" v
          = Except.ok { s with objetivos := { s.objetivos with L_target := v } }
      ∧ ∀ tipo : String, tipo ≠ "F" → tipo ≠ "L" →
          actualizarObjetivo s tipo v
            = Except.error ("Tipo " ++ tipo ++ " no reconocido. Use F o L.") := by
  intro s v
  refine ⟨rfl, rfl, fun tipo hF hL => ?_⟩
  unfold actualizarObjetivo
  rw [if_neg hF, if_neg hL]

/-- Witness for claim C8: the unknown kind `X` is rejected with the
descriptive message. -/
theorem claim_C8_witness :
    actualizarObjetivo (init crearParametrosDefault) "X" 5
      = Except.error ("Tipo " ++ "X" ++ " no reconocido. Use F o L.") :=
  (claim_C8 (init crearParametrosDefault) 5).2.2 "X" (by decide) (by decide)

/-- Claim C9: `reset()` rebuilds the simulator from its stored parameters, so
stepping `N` times after a reset gives exactly the trajectory of a freshly
constructed simulator with the same parameters, for every noise stream (the
random seed is identified with the noise stream, which the claim holds fixed). -/
theorem claim_C9 :
    ∀ (s : Sim) (sinq expq : ℚ → ℚ) (rs : ℕ → Ruido) (n : ℕ),
      stepN sinq expq rs n (reset s) = stepN sinq expq rs n (init s.params) := by
  intro s sinq expq rs n
  rfl

/-- Claim C10: the state is constructed with `feed_flow = 0`, yet after every
call of the feed-generation step the stored feed flow lies in the absolute
band `[500, 5000]` t/h and the stored grade in `[0.003, 0.015]`, whatever the
state, targets, noise and oscillator values. -/
theorem claim_C10 :
    (∀ p : Params, (init p).estado.F_actual = 0)
    ∧ (∀ (sinq : ℚ → ℚ) (r : Ruido) (dt : ℚ) (s : Sim),
      500 ≤ (calcularAlimentacion sinq r dt s).2.1
      ∧ (calcularAlimentacion sinq r dt s).2.1 ≤ 5000
      ∧ 3 / 1000 ≤ (calcularAlimentacion sinq r dt s).2.2
      ∧ (calcularAlimentacion sinq r dt s).2.2 ≤ 3 / 200
      ∧ (calcularAlimentacion sinq r dt s).1.estado.F_actual
          = (calcularAlimentacion sinq r dt s).2.1
      ∧ (calcularAlimentacion sinq r dt s).1.estado.L_actual
          = (calcularAlimentacion sinq r dt s).2.2) := by
  refine ⟨fun _ => rfl, fun sinq r dt s => ?_⟩
  exact ⟨le_clip _ _ _ (by norm_num), clip_le _ _ _,
    le_clip _ _ _ (by norm_num), clip_le _ _ _, rfl, rfl⟩

/-- Claim C4, counterexample: with the default 90 minute recirculation delay,
at `t = 89` minutes (before the delay has elapsed) the recirculation flow is
NOT `0`: the code ramps the CURRENT feed, returning
`0.11 * 2000 * 89/90 = 1958/9 ≈ 217.6` t/h. -/
theorem claim_C4_counterexample :
    simC4.estado.t < simC4.params.tau_recirculacion / 60
    ∧ (calcularRecirculacion simC4 2000).2 = 1958 / 9
    ∧ (1958 / 9 : ℚ) ≠ 0 := by
  refine ⟨?_, ?_, by norm_num⟩
  · norm_num [simC4, estadoC4, crearParametrosDefault]
  · norm_num [calcularRecirculacion, pushCap, simC4, estadoC4, crearParametrosDefault,
      historialVacio]

/-- Claim C4, amended: while the elapsed time has not yet exceeded the
configured recirculation delay (`t - delay ≤ 0`), the recirculation read does
not return the delayed signal but
`fraccion_recirculacion * current_feed * min(1, t/delay)` — a linear ramp of
the CURRENT feed, which is `0` only at `t = 0`. -/
theorem claim_C4 :
    ∀ (s : Sim) (Fc : ℚ),
      s.estado.t - s.params.tau_recirculacion / 60 ≤ 0 →
      (calcularRecirculacion s Fc).2
        = s.params.fraccion_recirculacion * Fc
            * min 1 (s.estado.t / (s.params.tau_recirculacion / 60)) := by
  intro s Fc h
  have hneg : ¬(0 < (pushCap 10000 s.buffer_t s.estado.t).length
      ∧ 0 < s.estado.t - s.params.tau_recirculacion / 60) := by
    rintro ⟨-, h2⟩
    linarith
  simp only [calcularRecirculacion]
  rw [if_neg hneg]

/-- Witness for claim C4 at the `t = 89` minute fixture: the ramp formula
evaluates to the nonzero `1958/9` t/h. -/
theorem claim_C4_witness :
    simC4.estado.t - simC4.params.tau_recirculacion / 60 ≤ 0
    ∧ (calcularRecirculacion simC4 2000).2
        = simC4.params.fraccion_recirculacion * 2000
            * min 1 (simC4.estado.t / (simC4.params.tau_recirculacion / 60)) :=
  ⟨by norm_num [simC4, estadoC4, crearParametrosDefault],
   claim_C4 simC4 2000 (by norm_num [simC4, estadoC4, crearParametrosDefault])⟩

/-- Claim C6, counterexample: at `t = 36` minutes (after warm-up, before the
variability window) with feed 500 t/h and target 2000 t/h, zero noise, the
new feed is `500 + 10/3 = 1510/3 ≈ 503.3` t/h — the change was rate-limited
to `0.1 * target * dt` — whereas the exact first-order law
`flow + (target - flow)/tau_F * dt` gives `525` t/h. -/
theorem claim_C6_counterexample :
    (calcularAlimentacion sinZero ruidoCero dtSim simC6).2.1 = 1510 / 3
    ∧ simC6.estado.F_actual
        + (simC6.objetivos.F_target - simC6.estado.F_actual) / 1 * dtSim = 525
    ∧ (1510 / 3 : ℚ) ≠ 525 := by
  refine ⟨?_, ?_, by norm_num⟩
  · norm_num [calcularAlimentacion, clip, dtSim, simC6, simC4, estadoC4,
      crearParametrosDefault, historialVacio, sinZero, ruidoCero]
  · norm_num [simC6, simC4, estadoC4, crearParametrosDefault, dtSim]

/-- Claim C6, amended: after warm-up (`t ≥ 0.5 h`) and before the variability
windows open (`t ≤ 1 h`), the feed generator updates the flow by
`(target - flow)/tau_F * dt` CLIPPED to `±0.1 * target * dt` (with the
hard-coded `tau_F = 1.0` h) and the grade by `(target - grade)/tau_L * dt`
CLIPPED to `±0.05 * target * dt` (hard-coded `tau_L = 1.5` h), before the
absolute bounds are applied. -/
theorem claim_C6 :
    ∀ (sinq : ℚ → ℚ) (r : Ruido) (dt : ℚ) (s : Sim),
      1 / 2 ≤ s.estado.t → s.estado.t ≤ 1 →
      (calcularAlimentacion sinq r dt s).2.1
        = clip (s.estado.F_actual
            + clip ((s.objetivos.F_target - s.estado.F_actual) / 1 * dt)
                (-(s.objetivos.F_target * (1 / 10) * dt))
                (s.objetivos.F_target * (1 / 10) * dt)) 500 5000
      ∧ (calcularAlimentacion sinq r dt s).2.2
        = clip (s.estado.L_actual
            + clip ((s.objetivos.L_target - s.estado.L_actual) / (3 / 2) * dt)
                (-(s.objetivos.L_target * (1 / 20) * dt))
                (s.objetivos.L_target * (1 / 20) * dt)) (3 / 1000) (3 / 200) := by
  intro sinq r dt s h1 h2
  have hn1 : ¬(s.estado.t < 1 / 2) := not_lt.mpr h1
  have hn2 : ¬(1 < s.estado.t) := not_lt.mpr h2
  have hn3 : ¬((3 : ℚ) / 2 < s.estado.t) := not_lt.mpr (by linarith)
  constructor
  · simp only [calcularAlimentacion]
    rw [if_neg hn1, if_neg hn2]
    congr 1
    ring
  · simp only [calcularAlimentacion]
    rw [if_neg hn1, if_neg hn3]
    congr 1
    ring

/-- Witness for claim C6 at the `t = 36` minute fixture: both rate-capped
update formulas evaluate to the values the step produces. -/
theorem claim_C6_witness :
    ((1 : ℚ) / 2 ≤ simC6.estado.t ∧ simC6.estado.t ≤ 1)
    ∧ (calcularAlimentacion sinZero ruidoCero dtSim simC6).2.1
        = clip (simC6.estado.F_actual
            + clip ((simC6.objetivos.F_target - simC6.estado.F_actual) / 1 * dtSim)
                (-(simC6.objetivos.F_target * (1 / 10) * dtSim))
                (simC6.objetivos.F_target * (1 / 10) * dtSim)) 500 5000
    ∧ (calcularAlimentacion sinZero ruidoCero dtSim simC6).2.2
        = clip (simC6.estado.L_actual
            + clip ((simC6.objetivos.L_target - simC6.estado.L_actual) / (3 / 2) * dtSim)
                (-(simC6.objetivos.L_target * (1 / 20) * dtSim))
                (simC6.objetivos.L_target * (1 / 20) * dtSim)) (3 / 1000) (3 / 200) :=
  ⟨⟨by norm_num [simC6, simC4, estadoC4], by norm_num [simC6, simC4, estadoC4]⟩,
   (claim_C6 sinZero ruidoCero dtSim simC6
      (by norm_num [simC6, simC4, estadoC4])
      (by norm_num [simC6, simC4, estadoC4])).1,
   (claim_C6 sinZero ruidoCero dtSim simC6
      (by norm_num [simC6, simC4, estadoC4])
      (by norm_num [simC6, simC4, estadoC4])).2⟩

/-- Once the running best distance is `0`, the fold keeps the stored index:
no later distance can be strictly smaller than `0`. -/
lemma idxMinAux_bv_zero (tp : ℚ) :
    ∀ (l : List ℚ) (i bi : ℕ), idxMinAux tp l i bi 0 = bi := by
  intro l
  induction l with
  | nil => intro i bi; rfl
  | cons u rest ih =>
    intro i bi
    simp only [idxMinAux]
    rw [if_neg (not_lt.mpr (abs_nonneg _))]
    exact ih (i + 1) bi

/-- If position `k` of the remaining list is at distance `0` from the query,
every earlier remaining position is at positive distance, and the running best
distance is positive, then the fold returns absolute index `i + k`. -/
lemma idxMinAux_finds_zero (tp : ℚ) :
    ∀ (l : List ℚ) (i bi : ℕ) (bv : ℚ), 0 < bv →
      ∀ (k : ℕ) (hk : k < l.length), |l.get ⟨k, hk⟩ - tp| = 0 →
      (∀ m (hm : m < l.length), m < k → 0 < |l.get ⟨m, hm⟩ - tp|) →
      idxMinAux tp l i bi bv = i + k := by
  intro l
  induction l with
  | nil =>
    intro i bi bv hbv k hk
    exact absurd hk (Nat.not_lt_zero k)
  | cons u rest ih =>
    intro i bi bv hbv k hk hzero hprev
    cases k with
    | zero =>
      have hu : |u - tp| = 0 := hzero
      simp only [idxMinAux]
      rw [if_pos (by rw [hu]; exact hbv), hu, idxMinAux_bv_zero]
      omega
    | succ k' =>
      have hu : 0 < |u - tp| := hprev 0 (Nat.succ_pos _) (Nat.succ_pos _)
      have hk' : k' < rest.length := Nat.lt_of_succ_lt_succ hk
      have hz' : |rest.get ⟨k', hk'⟩ - tp| = 0 := hzero
      have hprev' : ∀ m (hm : m < rest.length), m < k' → 0 < |rest.get ⟨m, hm⟩ - tp| := by
        intro m hm hmk
        exact hprev (m + 1) (Nat.succ_lt_succ hm) (Nat.succ_lt_succ hmk)
      simp only [idxMinAux]
      by_cases hcond : |u - tp| < bv
      · rw [if_pos hcond, ih (i + 1) i |u - tp| hu k' hk' hz' hprev']
        omega
      · rw [if_neg hcond, ih (i + 1) bi bv hbv k' hk' hz' hprev']
        omega

/-- When the query time occurs exactly once among the recorded times, the
nearest-absolute-time search returns exactly that index. -/
lemma idxMinAbs_exact (ts : List ℚ) (tp : ℚ) (j : ℕ) (hj : j < ts.length)
    (hget : ts.get ⟨j, hj⟩ = tp)
    (huniq : ∀ i (hi : i < ts.length), i ≠ j → ts.get ⟨i, hi⟩ ≠ tp) :
    idxMinAbs ts tp = j := by
  cases ts with
  | nil => exact absurd hj (Nat.not_lt_zero j)
  | cons u rest =>
    cases j with
    | zero =>
      have hu : |u - tp| = 0 := by
        have : u = tp := hget
        rw [this]
        simp
      simp only [idxMinAbs]
      rw [hu, idxMinAux_bv_zero]
    | succ j' =>
      have hune : u ≠ tp := huniq 0 (Nat.succ_pos _) (Nat.succ_ne_zero j').symm
      have hu0 : 0 < |u - tp| := abs_pos.mpr (sub_ne_zero.mpr hune)
      have hj' : j' < rest.length := Nat.lt_of_succ_lt_succ hj
      have hz : |rest.get ⟨j', hj'⟩ - tp| = 0 := by
        have : rest.get ⟨j', hj'⟩ = tp := hget
        rw [this]
        simp
      have hprev : ∀ m (hm : m < rest.length), m < j' → 0 < |rest.get ⟨m, hm⟩ - tp| := by
        intro m hm hmj
        have hne : rest.get ⟨m, hm⟩ ≠ tp :=
          huniq (m + 1) (Nat.succ_lt_succ hm) (by omega)
        exact abs_pos.mpr (sub_ne_zero.mpr hne)
      simp only [idxMinAbs]
      rw [idxMinAux_finds_zero tp rest 1 0 |u - tp| hu0 j' hj' hz hprev]
      omega

/-- Claim C5, counterexample: with recorded times `[0, 1]` and values
`[10, 20]`, the lookup at query time `3/5` returns `20` — the sample recorded
at time `1 > 3/5`, i.e. a FUTURE sample — while the most recent past sample
(the specified zero-order hold) is `10`. -/
theorem claim_C5_counterexample :
    buscarRetardo [0, 1] [10, 20] (3 / 5) = 20
    ∧ lookupNearestPast [0, 1] [10, 20] (3 / 5) = 10
    ∧ ([0, 1] : List ℚ).getD (idxMinAbs [0, 1] (3 / 5)) 0 = 1
    ∧ (3 / 5 : ℚ) < 1
    ∧ (20 : ℚ) ≠ 10 := by
  refine ⟨?_, ?_, ?_, by norm_num, by norm_num⟩
  · norm_num [buscarRetardo, idxMinAbs, idxMinAux, abs_of_nonneg, abs_of_nonpos]
  · norm_num [lookupNearestPast]
  · norm_num [idxMinAbs, idxMinAux, abs_of_nonneg, abs_of_nonpos]

/-- Claim C5, amended: the lookup returns the value at the first recorded
index whose time is nearest in ABSOLUTE distance to the query — which can be
a future sample — and only when the query time matches exactly one recorded
time (the situation of the simulator, whose delay is a whole number of
minutes on the minute-sampled buffer) is it guaranteed to return the value
recorded at the query time. -/
theorem claim_C5 :
    ∀ (ts vs : List ℚ) (tp : ℚ) (j : ℕ) (hj : j < ts.length),
      ts.get ⟨j, hj⟩ = tp →
      (∀ i (hi : i < ts.length), i ≠ j → ts.get ⟨i, hi⟩ ≠ tp) →
      buscarRetardo ts vs tp = vs.getD j 0 := by
  intro ts vs tp j hj hget huniq
  unfold buscarRetardo
  rw [idxMinAbs_exact ts tp j hj hget huniq]

/-- Witness for claim C5: on times `[0, 1]`, values `[10, 20]`, query `1`
(which matches exactly the sample recorded at index 1), the lookup returns
that sample's value `20`. -/
theorem claim_C5_witness :
    (([0, 1] : List ℚ).get ⟨1, by norm_num⟩ = 1)
    ∧ buscarRetardo [0, 1] [10, 20] 1 = ([10, 20] : List ℚ).getD 1 0 :=
  ⟨rfl,
   claim_C5 [0, 1] [10, 20] 1 1 (by norm_num) rfl
     (fun i hi hne => by
       match i, hi with
       | 0, _ => norm_num
       | 1, _ => exact absurd rfl hne)⟩
